import Mathlib

/-!
Verification of the squash LZ4 plugin (src/plugins/lz4/squash-lz4.c).

The file embeds the adapter's functions shallowly:
  * C strings become `List Char` (no interior NUL bytes),
  * byte buffers become `List Nat` together with an explicit capacity,
  * the in/out length slot becomes a returned `Nat`,
  * `SquashStatus` becomes an inductive type,
  * the C `long` is modelled as a 64-bit quantity (clamped by `strtol` on
    overflow, as on LP64 platforms) and `int` as a 32-bit quantity obtained
    by wrapping modulo 2^32.

The wrapped LZ4 library (lz4.h / lz4hc.h) is not part of the sources, so its
primitives are modelled from the spec, which treats the compressed stream
format as opaque; see the doc comments marked "Modelled from the spec".
-/

/-- Status codes of the host API (squash/squash.h); only the constructors the
plugin uses are embedded. -/
inductive SquashStatus where
  | SQUASH_OK
  | SQUASH_FAILED
  | SQUASH_UNABLE_TO_LOAD
  | SQUASH_BAD_PARAM
  | SQUASH_BAD_VALUE
  | SQUASH_BUFFER_FULL
  deriving DecidableEq

export SquashStatus (SQUASH_OK SQUASH_FAILED SQUASH_UNABLE_TO_LOAD SQUASH_BAD_PARAM SQUASH_BAD_VALUE SQUASH_BUFFER_FULL)

/-- The plugin's option record `SquashLZ4Options_s`; the host base object
carries no state relevant to this plugin, so only the `hc` flag remains. -/
structure SquashLZ4Options where
  hc : Bool
  deriving DecidableEq

/-- ASCII lower-casing as done by C `tolower` on the characters that occur in
option keys. -/
def tolowerC (c : Char) : Char :=
  if 'A' ≤ c ∧ c ≤ 'Z' then Char.ofNat (c.toNat + 32) else c

/-- C `strcasecmp (a, b) == 0`: equality of the case-folded strings. -/
def strcaseEq (a b : List Char) : Bool :=
  a.map tolowerC == b.map tolowerC

/-- C `isspace` characters skipped by `strtol`. -/
def isSpaceChar (c : Char) : Bool :=
  c = ' ' || c = '\t' || c = '\n' || c = '\x0b' || c = '\x0c' || c = '\r'

/-- Numeric value of a digit character; 99 marks a non-digit (no base used by
`strtol` exceeds 36, so 99 never counts as a digit). -/
def digitVal (c : Char) : Nat :=
  if '0' ≤ c ∧ c ≤ '9' then c.toNat - 48
  else if 'a' ≤ c ∧ c ≤ 'f' then c.toNat - 87
  else if 'A' ≤ c ∧ c ≤ 'F' then c.toNat - 55
  else 99

/-- Reads a maximal run of digits of the given base, returning the
accumulated value and the number of characters consumed. -/
def readDigits (base : Nat) (acc : Nat) : List Char → Nat × Nat
  | [] => (acc, 0)
  | c :: cs =>
    if digitVal c < base then
      let p := readDigits base (acc * base + digitVal c) cs
      (p.1, p.2 + 1)
    else (acc, 0)

/-- On overflow `strtol` returns `LONG_MAX` / `LONG_MIN`; `long` is modelled
as 64 bits wide. -/
def clampLong (v : Int) : Int :=
  if v > 9223372036854775807 then 9223372036854775807
  else if v < -9223372036854775808 then -9223372036854775808
  else v

/-- C `strtol (s, &endptr, 0)`: skip whitespace, read an optional sign, then
a `0x`-prefixed hexadecimal, `0`-prefixed octal, or decimal digit string.
Returns the (clamped) value and the number of characters consumed, i.e. the
offset of `endptr` from the start; when no conversion is performed the value
is 0 and `endptr` is the original pointer. -/
def strtol0 (cs : List Char) : Int × Nat :=
  let wsN := (cs.takeWhile isSpaceChar).length
  let r1 := cs.drop wsN
  let sgn : Int :=
    match r1 with
    | '-' :: _ => -1
    | _ => 1
  let sgnN : Nat :=
    match r1 with
    | '-' :: _ => 1
    | '+' :: _ => 1
    | _ => 0
  let r2 := r1.drop sgnN
  match r2 with
  | '0' :: x :: rest =>
    if x = 'x' ∨ x = 'X' then
      match rest with
      | d :: _ =>
        if digitVal d < 16 then
          let p := readDigits 16 0 rest
          (clampLong (sgn * (p.1 : Int)), wsN + sgnN + 2 + p.2)
        else (0, wsN + sgnN + 1)
      | [] => (0, wsN + sgnN + 1)
    else
      let p := readDigits 8 0 ('0' :: x :: rest)
      (clampLong (sgn * (p.1 : Int)), wsN + sgnN + p.2)
  | ['0'] => (0, wsN + sgnN + 1)
  | _ =>
    let p := readDigits 10 0 r2
    if p.2 = 0 then (0, 0)
    else (clampLong (sgn * (p.1 : Int)), wsN + sgnN + p.2)

/-- Conversion of a C `long` value to `int` (wrap modulo 2^32 into the signed
32-bit range), as performed by the cast `(int) strtol (...)`. -/
def toInt32 (v : Int) : Int :=
  (v + 2147483648) % 4294967296 - 2147483648

/-- The option key recognised by the plugin: the C literal "level". -/
def levelKey : List Char := ['l', 'e', 'v', 'e', 'l']

/-- Embedding of `squash_lz4_parse_option`: on the (case-insensitive) key
"level", parse the value with `strtol` base 0, cast to `int`, and accept
exactly the levels 1 and 9, setting `hc` to whether the level is 9; other
values yield `SQUASH_BAD_VALUE` and other keys `SQUASH_BAD_PARAM`, leaving
the options unchanged.  The returned pair is (status, options after call). -/
def squash_lz4_parse_option (opts : SquashLZ4Options) (key value : List Char) :
    SquashStatus × SquashLZ4Options :=
  if strcaseEq key levelKey then
    let level : Int := toInt32 (strtol0 value).1
    if (strtol0 value).2 = value.length ∧ (level = 1 ∨ level = 9) then
      (SQUASH_OK, { opts with hc := level == 9 })
    else
      (SQUASH_BAD_VALUE, opts)
  else
    (SQUASH_BAD_PARAM, opts)

example : squash_lz4_parse_option ⟨false⟩ levelKey ['9'] = (SQUASH_OK, ⟨true⟩) := by decide
example : squash_lz4_parse_option ⟨false⟩ levelKey ['1'] = (SQUASH_OK, ⟨false⟩) := by decide
example : squash_lz4_parse_option ⟨false⟩ levelKey ['5'] = (SQUASH_BAD_VALUE, ⟨false⟩) := by decide
example : squash_lz4_parse_option ⟨false⟩ levelKey ['1', 'x'] = (SQUASH_BAD_VALUE, ⟨false⟩) := by decide
example : squash_lz4_parse_option ⟨false⟩ levelKey ['0', 'x', '9'] = (SQUASH_OK, ⟨true⟩) := by decide
example : squash_lz4_parse_option ⟨false⟩ ['L', 'E', 'V', 'E', 'L'] ['9'] = (SQUASH_OK, ⟨true⟩) := by decide
example : squash_lz4_parse_option ⟨true⟩ ['f', 'o', 'o'] ['9'] = (SQUASH_BAD_PARAM, ⟨true⟩) := by decide
example : squash_lz4_parse_option ⟨false⟩ levelKey [] = (SQUASH_BAD_VALUE, ⟨false⟩) := by decide

/-- The macro `LZ4_COMPRESSBOUND(isize)` from the LZ4 header:
`isize + isize / 255 + 16`. -/
def LZ4_COMPRESSBOUND (isize : Nat) : Nat :=
  isize + isize / 255 + 16

/-- Embedding of `squash_lz4_get_max_compressed_size` (the codec argument is
unused in the C code and dropped): a total, pure function. -/
def squash_lz4_get_max_compressed_size (uncompressed_length : Nat) : Nat :=
  LZ4_COMPRESSBOUND uncompressed_length

/-- Modelled from the spec: the size limit inherent in the LZ4 primitives,
whose size parameters are C `int`s (the header's `LZ4_MAX_INPUT_SIZE`). -/
def LZ4_MAX_INPUT_SIZE : Nat := 2113929216

/-- Little-endian 8-byte encoding of a length (exact for `n < 2^64`). -/
def toLE8 (n : Nat) : List Nat :=
  [n % 256, n / 256 % 256, n / 65536 % 256, n / 16777216 % 256,
   n / 4294967296 % 256, n / 1099511627776 % 256,
   n / 281474976710656 % 256, n / 72057594037927936 % 256]

/-- Value of an 8-byte little-endian length header. -/
def fromLE8 (bs : List Nat) : Nat :=
  match bs with
  | [b0, b1, b2, b3, b4, b5, b6, b7] =>
    b0 + b1 * 256 + b2 * 65536 + b3 * 16777216 + b4 * 4294967296 +
      b5 * 1099511627776 + b6 * 281474976710656 + b7 * 72057594037927936
  | _ => 0

/-- Modelled from the spec: the LZ4 block produced by the wrapped library
(lz4.c is not under src/ and the spec treats the stream format as opaque), so
the model uses a self-describing block: an 8-byte length header followed by
the raw bytes.  Its length, `n + 8`, respects `LZ4_COMPRESSBOUND n`. -/
def lz4BlockEncode (input : List Nat) : List Nat :=
  toLE8 input.length ++ input

/-- Modelled from the spec: `LZ4_compress_limitedOutput` from the wrapped
library.  Returns the bytes written; an empty result models the C return
value 0, produced when the block does not fit in `maxOutputSize` or the
input exceeds the primitive's size limit. -/
def LZ4_compress_limitedOutput (source : List Nat) (maxOutputSize : Nat) : List Nat :=
  let out := lz4BlockEncode source
  if source.length ≤ LZ4_MAX_INPUT_SIZE ∧ out.length ≤ maxOutputSize then out else []

/-- Modelled from the spec: `LZ4_compressHC_limitedOutput`.  The spec leaves
both variants' stream formats opaque and both decompress to the same input,
so the model reuses the same block encoding; the adapter's choice between
the two variants is proved generically, over arbitrary primitives. -/
def LZ4_compressHC_limitedOutput : List Nat → Nat → List Nat :=
  LZ4_compress_limitedOutput

/-- Modelled from the spec: `LZ4_compress`, the capacity-unchecked primitive,
which assumes a worst-case sized buffer and fails (returns 0 bytes) only on
inputs beyond the primitive's size limit. -/
def LZ4_compress (source : List Nat) : List Nat :=
  if source.length ≤ LZ4_MAX_INPUT_SIZE then lz4BlockEncode source else []

/-- Modelled from the spec: `LZ4_compressHC`; same block model as
`LZ4_compress`, cf. `LZ4_compressHC_limitedOutput`. -/
def LZ4_compressHC : List Nat → List Nat :=
  LZ4_compress

/-- A compressed stream is well formed for a given output capacity when it
carries a complete header, the body length matches the header, and the body
fits in the capacity. -/
def lz4WellFormed (source : List Nat) (maxDecompressedSize : Nat) : Prop :=
  8 ≤ source.length ∧ (source.drop 8).length = fromLE8 (source.take 8) ∧
    fromLE8 (source.take 8) ≤ maxDecompressedSize

instance (source : List Nat) (maxDecompressedSize : Nat) :
    Decidable (lz4WellFormed source maxDecompressedSize) := by
  unfold lz4WellFormed; infer_instance

/-- Modelled from the spec: `LZ4_decompress_safe`; `none` models the negative
return value the C code checks for, produced on malformed or truncated
streams and on streams whose body would overflow the capacity. -/
def LZ4_decompress_safe (source : List Nat) (maxDecompressedSize : Nat) :
    Option (List Nat) :=
  if lz4WellFormed source maxDecompressedSize then some (source.drop 8) else none

/-- The branch condition of both compress wrappers: the C code takes the fast
path when `options == NULL || !((SquashLZ4Options*) options)->hc`. -/
def lz4UsesHC (options : Option SquashLZ4Options) : Bool :=
  match options with
  | none => false
  | some o => o.hc

/-- Shared tail of both compress wrappers: the C code stores the primitive's
return value into `*compressed_length` and returns
`(*compressed_length == 0) ? SQUASH_BUFFER_FULL : SQUASH_OK`. -/
def mkCompressResult (out : List Nat) : SquashStatus × Nat × List Nat :=
  (if out.length = 0 then SQUASH_BUFFER_FULL else SQUASH_OK, out.length, out)

/-- Embedding of `squash_lz4_compress_buffer`, generic in the two primitives
it dispatches between so that the dispatch itself can be reasoned about;
returns (status, value stored in the length slot, bytes written). -/
def squash_lz4_compress_buffer_gen (fast hc : List Nat → Nat → List Nat)
    (options : Option SquashLZ4Options) (uncompressed : List Nat)
    (compressed_length : Nat) : SquashStatus × Nat × List Nat :=
  mkCompressResult
    (if lz4UsesHC options then hc uncompressed compressed_length
     else fast uncompressed compressed_length)

/-- `squash_lz4_compress_buffer` with the modelled LZ4 primitives. -/
def squash_lz4_compress_buffer :
    Option SquashLZ4Options → List Nat → Nat → SquashStatus × Nat × List Nat :=
  squash_lz4_compress_buffer_gen LZ4_compress_limitedOutput LZ4_compressHC_limitedOutput

/-- The debug-only assertion at the head of the C function
`squash_lz4_compress_buffer_unsafe`:
`assert (*compressed_length >= LZ4_COMPRESSBOUND(uncompressed_length))`. -/
def squash_lz4_unchecked_assertion (compressed_length uncompressed_length : Nat) : Prop :=
  LZ4_COMPRESSBOUND uncompressed_length ≤ compressed_length

/-- Embedding of the C function `squash_lz4_compress_buffer_unsafe` (renamed
here to `unchecked`), generic in its two capacity-unchecked primitives; the
capacity argument is read only by the debug assertion, which release builds
skip, so the function itself ignores it. -/
def squash_lz4_compress_buffer_unchecked_gen (fastU hcU : List Nat → List Nat)
    (options : Option SquashLZ4Options) (uncompressed : List Nat)
    (_compressed_length : Nat) : SquashStatus × Nat × List Nat :=
  mkCompressResult
    (if lz4UsesHC options then hcU uncompressed else fastU uncompressed)

/-- The C function `squash_lz4_compress_buffer_unsafe` with the modelled LZ4
primitives. -/
def squash_lz4_compress_buffer_unchecked :
    Option SquashLZ4Options → List Nat → Nat → SquashStatus × Nat × List Nat :=
  squash_lz4_compress_buffer_unchecked_gen LZ4_compress LZ4_compressHC

/-- Embedding of `squash_lz4_decompress_buffer`, generic in the decompression
primitive: a negative primitive result (`none`) yields `SQUASH_FAILED` with
the length slot left at the caller-supplied capacity; otherwise the slot is
overwritten with the decompressed length.  The options argument is unused in
the C code and dropped. -/
def squash_lz4_decompress_buffer_gen (prim : List Nat → Nat → Option (List Nat))
    (compressed : List Nat) (decompressed_length : Nat) :
    SquashStatus × Nat × List Nat :=
  match prim compressed decompressed_length with
  | none => (SQUASH_FAILED, decompressed_length, [])
  | some out => (SQUASH_OK, out.length, out)

/-- `squash_lz4_decompress_buffer` with the modelled LZ4 primitive. -/
def squash_lz4_decompress_buffer :
    List Nat → Nat → SquashStatus × Nat × List Nat :=
  squash_lz4_decompress_buffer_gen LZ4_decompress_safe

example :
    squash_lz4_compress_buffer none [7, 42] 18 = (SQUASH_OK, 10, [2, 0, 0, 0, 0, 0, 0, 0, 7, 42]) := by
  decide

example : squash_lz4_decompress_buffer [2, 0, 0, 0, 0, 0, 0, 0, 7, 42] 2 = (SQUASH_OK, 2, [7, 42]) := by
  decide

example : (squash_lz4_compress_buffer none [7, 42] 5).1 = SQUASH_BUFFER_FULL := by decide

example : (squash_lz4_decompress_buffer [2, 0, 0] 9).1 = SQUASH_FAILED := by decide

/-- Outcome of a violated `assert`: the C program aborts (debug builds) or
continues into undefined behaviour (release builds); either way no status is
returned to the host. -/
inductive SquashAssertViolation where
  | nullOptions
  deriving DecidableEq

/-- Embedding of `squash_lz4_options_init`: its first statement is
`assert (options != NULL)`, so a NULL argument is an assertion violation;
otherwise the host base object is initialised (stateless in this model) and
`options->hc` is set to `false`.  The pointer argument is modelled as
`Option`: `none` is NULL, `some junk` a malloc'd, still uninitialised
record. -/
def squash_lz4_options_init (options : Option SquashLZ4Options) :
    Except SquashAssertViolation SquashLZ4Options :=
  match options with
  | none => Except.error SquashAssertViolation.nullOptions
  | some o => Except.ok { o with hc := false }

/-- Embedding of `squash_lz4_options_new`: calls `malloc` and passes the
result straight to `squash_lz4_options_init` with no NULL check.  The
`malloc_result` argument models the allocator's answer: `some junk` on
success (contents uninitialised), `none` on exhaustion. -/
def squash_lz4_options_new (malloc_result : Option SquashLZ4Options) :
    Except SquashAssertViolation SquashLZ4Options :=
  squash_lz4_options_init malloc_result

/-- Embedding of `squash_lz4_create_options` (the cast to `SquashOptions*`
is identity in the model). -/
def squash_lz4_create_options :
    Option SquashLZ4Options → Except SquashAssertViolation SquashLZ4Options :=
  squash_lz4_options_new

/-- The slots of `SquashCodecFuncs` that the plugin installs, holding the
embedded functions; `none` models a NULL function pointer. -/
structure SquashCodecFuncs where
  create_options :
    Option (Option SquashLZ4Options → Except SquashAssertViolation SquashLZ4Options)
  parse_option :
    Option (SquashLZ4Options → List Char → List Char → SquashStatus × SquashLZ4Options)
  get_max_compressed_size : Option (Nat → Nat)
  decompress_buffer : Option (List Nat → Nat → SquashStatus × Nat × List Nat)
  compress_buffer :
    Option (Option SquashLZ4Options → List Nat → Nat → SquashStatus × Nat × List Nat)
  compress_buffer_unchecked :
    Option (Option SquashLZ4Options → List Nat → Nat → SquashStatus × Nat × List Nat)

/-- A funcs table with every slot NULL, as handed over by the host. -/
def emptyCodecFuncs : SquashCodecFuncs :=
  ⟨none, none, none, none, none, none⟩

/-- Embedding of `squash_plugin_init_codec`: on the exact (case-sensitive)
name "lz4" — `strcmp ("lz4", name) == 0` — install all six function pointers
and return `SQUASH_OK`; on any other name return `SQUASH_UNABLE_TO_LOAD`
without touching the table. -/
def squash_plugin_init_codec (name : String) (funcs : SquashCodecFuncs) :
    SquashStatus × SquashCodecFuncs :=
  if name = "lz4" then
    (SQUASH_OK,
      { funcs with
        create_options := some squash_lz4_create_options,
        parse_option := some squash_lz4_parse_option,
        get_max_compressed_size := some squash_lz4_get_max_compressed_size,
        decompress_buffer := some squash_lz4_decompress_buffer,
        compress_buffer := some squash_lz4_compress_buffer,
        compress_buffer_unchecked := some squash_lz4_compress_buffer_unchecked })
  else
    (SQUASH_UNABLE_TO_LOAD, funcs)

example : (squash_plugin_init_codec "lz4" emptyCodecFuncs).1 = SQUASH_OK := by decide
example : (squash_plugin_init_codec "LZ4" emptyCodecFuncs).1 = SQUASH_UNABLE_TO_LOAD := by decide

theorem toLE8_length (n : Nat) : (toLE8 n).length = 8 := rfl

theorem fromLE8_toLE8 (n : Nat) (h : n < 18446744073709551616) :
    fromLE8 (toLE8 n) = n := by
  simp [toLE8, fromLE8]
  omega

theorem lz4BlockEncode_length (B : List Nat) :
    (lz4BlockEncode B).length = B.length + 8 := by
  simp [lz4BlockEncode, toLE8]

/-- The modelled block stream decodes back to its input whenever the input is
within the primitive's size limit and the output capacity suffices. -/
theorem decode_encode (B : List Nat) (cap : Nat)
    (h1 : B.length ≤ LZ4_MAX_INPUT_SIZE) (h2 : B.length ≤ cap) :
    LZ4_decompress_safe (lz4BlockEncode B) cap = some B := by
  have htake : (lz4BlockEncode B).take 8 = toLE8 B.length := by
    have h := List.take_left (toLE8 B.length) B
    simp only [toLE8_length] at h
    simpa [lz4BlockEncode] using h
  have hdrop : (lz4BlockEncode B).drop 8 = B := by
    have h := List.drop_left (toLE8 B.length) B
    simp only [toLE8_length] at h
    simpa [lz4BlockEncode] using h
  have hfrom : fromLE8 ((lz4BlockEncode B).take 8) = B.length := by
    rw [htake, fromLE8_toLE8]
    unfold LZ4_MAX_INPUT_SIZE at h1; omega
  have hwf : lz4WellFormed (lz4BlockEncode B) cap := by
    refine ⟨?_, ?_, ?_⟩
    · rw [lz4BlockEncode_length]; omega
    · rw [hdrop, hfrom]
    · rw [hfrom]; exact h2
  rw [LZ4_decompress_safe, if_pos hwf, hdrop]

/-- A successful bounds-checked compress call pins down the whole result:
the output is the encoded block, the slot holds its length, and both the
size limit and the capacity bound were met. -/
theorem compress_ok_eq (options : Option SquashLZ4Options) (B : List Nat) (ccap : Nat)
    (h : (squash_lz4_compress_buffer options B ccap).1 = SQUASH_OK) :
    squash_lz4_compress_buffer options B ccap
        = (SQUASH_OK, B.length + 8, lz4BlockEncode B)
      ∧ B.length ≤ LZ4_MAX_INPUT_SIZE ∧ (lz4BlockEncode B).length ≤ ccap := by
  have hsel :
      squash_lz4_compress_buffer options B ccap
        = mkCompressResult (LZ4_compress_limitedOutput B ccap) := by
    unfold squash_lz4_compress_buffer squash_lz4_compress_buffer_gen
      LZ4_compressHC_limitedOutput
    exact congrArg mkCompressResult (ite_self _)
  rw [hsel] at h ⊢
  unfold LZ4_compress_limitedOutput at h ⊢
  by_cases hc : B.length ≤ LZ4_MAX_INPUT_SIZE ∧ (lz4BlockEncode B).length ≤ ccap
  · rw [if_pos hc]
    refine ⟨?_, hc.1, hc.2⟩
    unfold mkCompressResult
    rw [lz4BlockEncode_length, if_neg (by omega)]
  · rw [if_neg hc] at h
    simp [mkCompressResult] at h

/-- Case analysis of the shared compress-wrapper tail: the status is
`SQUASH_BUFFER_FULL` exactly on a zero-length primitive result, `SQUASH_OK`
otherwise, no third status occurs, and the length slot always receives the
primitive's returned size. -/
theorem mkCompressResult_cases (out : List Nat) :
    ((mkCompressResult out).1 = SQUASH_BUFFER_FULL ↔ out.length = 0)
    ∧ ((mkCompressResult out).1 = SQUASH_OK ↔ out.length ≠ 0)
    ∧ (mkCompressResult out).2.1 = out.length
    ∧ ((mkCompressResult out).1 = SQUASH_OK ∨ (mkCompressResult out).1 = SQUASH_BUFFER_FULL) := by
  unfold mkCompressResult
  by_cases h : out.length = 0 <;> simp [h]

/-- Fast-path primitive stand-in used to exercise the generic dispatch. -/
def demoFastPrim (B : List Nat) (_cap : Nat) : List Nat := 1 :: B

/-- High-compression primitive stand-in used to exercise the dispatch. -/
def demoHCPrim (B : List Nat) (_cap : Nat) : List Nat := 2 :: 2 :: B

/-- Capacity-unchecked fast primitive stand-in. -/
def demoFastRaw (B : List Nat) : List Nat := 3 :: B

/-- Capacity-unchecked high-compression primitive stand-in. -/
def demoHCRaw (B : List Nat) : List Nat := 4 :: 4 :: B

/-- Primitive stand-in that always reports failure (zero bytes written). -/
def demoZeroPrim (_B : List Nat) (_cap : Nat) : List Nat := []

/-- Capacity-unchecked primitive stand-in that always reports failure. -/
def demoZeroRaw (_B : List Nat) : List Nat := []

/-- C1: decompressing the output of a successful bounds-checked compress
call, with output capacity at least the input length, succeeds and yields
exactly the original bytes, for either option setting (the options value
only selects the variant, and both variants produce the same modelled
block). -/
theorem lz4_roundtrip (options : Option SquashLZ4Options) (B : List Nat)
    (ccap dcap : Nat)
    (hok : (squash_lz4_compress_buffer options B ccap).1 = SQUASH_OK)
    (hcap : B.length ≤ dcap) :
    squash_lz4_decompress_buffer (squash_lz4_compress_buffer options B ccap).2.2 dcap
      = (SQUASH_OK, B.length, B) := by
  obtain ⟨heq, hlim, hfit⟩ := compress_ok_eq options B ccap hok
  rw [heq]
  unfold squash_lz4_decompress_buffer squash_lz4_decompress_buffer_gen
  rw [decode_encode B dcap hlim hcap]

/-- C1 witness: a concrete round trip through compress and decompress. -/
theorem lz4_roundtrip_witness :
    (squash_lz4_compress_buffer none [7, 42] 18).1 = SQUASH_OK
    ∧ 2 ≤ 2
    ∧ squash_lz4_decompress_buffer (squash_lz4_compress_buffer none [7, 42] 18).2.2 2
        = (SQUASH_OK, 2, [7, 42]) :=
  ⟨by decide, by decide, lz4_roundtrip none [7, 42] 18 2 (by decide) (by decide)⟩

/-- C4: `squash_lz4_get_max_compressed_size` is a total (pure, non-failing)
function, and every successful compress call reports a compressed length
within the bound it returns for the input's length. -/
theorem max_compressed_size_bound (options : Option SquashLZ4Options)
    (B : List Nat) (ccap : Nat)
    (hok : (squash_lz4_compress_buffer options B ccap).1 = SQUASH_OK) :
    (squash_lz4_compress_buffer options B ccap).2.1
      ≤ squash_lz4_get_max_compressed_size B.length := by
  obtain ⟨heq, -, -⟩ := compress_ok_eq options B ccap hok
  rw [heq]
  show B.length + 8 ≤ squash_lz4_get_max_compressed_size B.length
  unfold squash_lz4_get_max_compressed_size LZ4_COMPRESSBOUND
  omega

/-- C4 witness: a concrete successful compress call stays within the bound. -/
theorem max_compressed_size_bound_witness :
    (squash_lz4_compress_buffer none [7, 42] 18).1 = SQUASH_OK
    ∧ (squash_lz4_compress_buffer none [7, 42] 18).2.1
        ≤ squash_lz4_get_max_compressed_size 2 :=
  ⟨by decide, max_compressed_size_bound none [7, 42] 18 (by decide)⟩

/-- C3: both compress wrappers dispatch to the high-compression primitive
exactly when an options value is present with `hc = true`; a NULL options
pointer or a cleared flag selects the fast primitive.  Stated generically
over the primitives, so the conclusion pins down which argument is
invoked. -/
theorem compress_variant_selection (fast hc : List Nat → Nat → List Nat)
    (fastU hcU : List Nat → List Nat) (options : Option SquashLZ4Options)
    (B : List Nat) (cap : Nat) :
    (lz4UsesHC options = true ↔ options = some ⟨true⟩)
    ∧ (options = some ⟨true⟩ →
        squash_lz4_compress_buffer_gen fast hc options B cap
            = mkCompressResult (hc B cap)
        ∧ squash_lz4_compress_buffer_unchecked_gen fastU hcU options B cap
            = mkCompressResult (hcU B))
    ∧ ((options = none ∨ options = some ⟨false⟩) →
        squash_lz4_compress_buffer_gen fast hc options B cap
            = mkCompressResult (fast B cap)
        ∧ squash_lz4_compress_buffer_unchecked_gen fastU hcU options B cap
            = mkCompressResult (fastU B)) := by
  match options with
  | none =>
    refine ⟨by simp [lz4UsesHC], by simp, fun _ => ⟨?_, ?_⟩⟩ <;>
      simp [squash_lz4_compress_buffer_gen, squash_lz4_compress_buffer_unchecked_gen, lz4UsesHC]
  | some ⟨true⟩ =>
    refine ⟨by simp [lz4UsesHC], fun _ => ⟨?_, ?_⟩, by simp⟩ <;>
      simp [squash_lz4_compress_buffer_gen, squash_lz4_compress_buffer_unchecked_gen, lz4UsesHC]
  | some ⟨false⟩ =>
    refine ⟨by simp [lz4UsesHC], by simp, fun _ => ⟨?_, ?_⟩⟩ <;>
      simp [squash_lz4_compress_buffer_gen, squash_lz4_compress_buffer_unchecked_gen, lz4UsesHC]

/-- C3 witness: with distinguishable stand-in primitives and
`options = some {hc := true}`, both wrappers invoke the high-compression
argument. -/
theorem compress_variant_selection_witness :
    squash_lz4_compress_buffer_gen demoFastPrim demoHCPrim (some ⟨true⟩) [5] 3
        = mkCompressResult (demoHCPrim [5] 3)
    ∧ squash_lz4_compress_buffer_unchecked_gen demoFastRaw demoHCRaw (some ⟨true⟩) [5] 3
        = mkCompressResult (demoHCRaw [5]) :=
  (compress_variant_selection demoFastPrim demoHCPrim demoFastRaw demoHCRaw
    (some ⟨true⟩) [5] 3).2.1 rfl

/-- C5: for any primitives, options, input and capacity, both compress
wrappers return `SQUASH_BUFFER_FULL` exactly when the invoked primitive
returned size zero, return `SQUASH_OK` otherwise with the length slot
overwritten by the primitive's returned size, and never return any other
status. -/
theorem compress_status_taxonomy (fast hc : List Nat → Nat → List Nat)
    (fastU hcU : List Nat → List Nat) (options : Option SquashLZ4Options)
    (B : List Nat) (cap : Nat) :
    ((squash_lz4_compress_buffer_gen fast hc options B cap).1 = SQUASH_BUFFER_FULL
        ↔ (if lz4UsesHC options then hc B cap else fast B cap).length = 0)
    ∧ ((squash_lz4_compress_buffer_gen fast hc options B cap).1 = SQUASH_OK
        ↔ (if lz4UsesHC options then hc B cap else fast B cap).length ≠ 0)
    ∧ (squash_lz4_compress_buffer_gen fast hc options B cap).2.1
        = (if lz4UsesHC options then hc B cap else fast B cap).length
    ∧ ((squash_lz4_compress_buffer_gen fast hc options B cap).1 = SQUASH_OK
        ∨ (squash_lz4_compress_buffer_gen fast hc options B cap).1 = SQUASH_BUFFER_FULL)
    ∧ ((squash_lz4_compress_buffer_unchecked_gen fastU hcU options B cap).1 = SQUASH_BUFFER_FULL
        ↔ (if lz4UsesHC options then hcU B else fastU B).length = 0)
    ∧ ((squash_lz4_compress_buffer_unchecked_gen fastU hcU options B cap).1 = SQUASH_OK
        ↔ (if lz4UsesHC options then hcU B else fastU B).length ≠ 0)
    ∧ (squash_lz4_compress_buffer_unchecked_gen fastU hcU options B cap).2.1
        = (if lz4UsesHC options then hcU B else fastU B).length
    ∧ ((squash_lz4_compress_buffer_unchecked_gen fastU hcU options B cap).1 = SQUASH_OK
        ∨ (squash_lz4_compress_buffer_unchecked_gen fastU hcU options B cap).1 = SQUASH_BUFFER_FULL) :=
  ⟨(mkCompressResult_cases _).1, (mkCompressResult_cases _).2.1,
   (mkCompressResult_cases _).2.2.1, (mkCompressResult_cases _).2.2.2,
   (mkCompressResult_cases _).1, (mkCompressResult_cases _).2.1,
   (mkCompressResult_cases _).2.2.1, (mkCompressResult_cases _).2.2.2⟩

/-- C5 witness: a failing primitive yields `SQUASH_BUFFER_FULL`, a
succeeding one `SQUASH_OK`, through the actual wrappers. -/
theorem compress_status_taxonomy_witness :
    (squash_lz4_compress_buffer_gen demoZeroPrim demoZeroPrim (some ⟨true⟩) [5] 3).1
        = SQUASH_BUFFER_FULL
    ∧ (squash_lz4_compress_buffer_unchecked_gen demoFastRaw demoHCRaw none [5] 3).1
        = SQUASH_OK :=
  ⟨(compress_status_taxonomy demoZeroPrim demoZeroPrim demoZeroRaw demoZeroRaw
      (some ⟨true⟩) [5] 3).1.mpr (by decide),
   (compress_status_taxonomy demoFastPrim demoHCPrim demoFastRaw demoHCRaw
      none [5] 3).2.2.2.2.2.1.mpr (by decide)⟩

/-- C6: the decompress wrapper returns `SQUASH_FAILED` exactly when the
primitive reports a negative result, which for the modelled primitive is
exactly a malformed, truncated, or capacity-overflowing stream; on success
the length slot is overwritten with the true decompressed length. -/
theorem decompress_status_contract (prim : List Nat → Nat → Option (List Nat))
    (compressed : List Nat) (cap : Nat) :
    ((squash_lz4_decompress_buffer_gen prim compressed cap).1 = SQUASH_FAILED
        ↔ prim compressed cap = none)
    ∧ (prim compressed cap = none →
        squash_lz4_decompress_buffer_gen prim compressed cap = (SQUASH_FAILED, cap, []))
    ∧ (∀ out, prim compressed cap = some out →
        squash_lz4_decompress_buffer_gen prim compressed cap = (SQUASH_OK, out.length, out))
    ∧ ((squash_lz4_decompress_buffer compressed cap).1 = SQUASH_FAILED
        ↔ ¬ lz4WellFormed compressed cap) := by
  refine ⟨?_, ?_, ?_, ?_⟩
  · cases h : prim compressed cap <;> simp [squash_lz4_decompress_buffer_gen, h]
  · intro h; simp [squash_lz4_decompress_buffer_gen, h]
  · intro out h; simp [squash_lz4_decompress_buffer_gen, h]
  · unfold squash_lz4_decompress_buffer squash_lz4_decompress_buffer_gen LZ4_decompress_safe
    by_cases h : lz4WellFormed compressed cap <;> simp [h]

/-- C6 witness: a truncated stream fails; a well-formed stream succeeds with
the true length written back. -/
theorem decompress_status_contract_witness :
    (squash_lz4_decompress_buffer [2, 0, 0] 9).1 = SQUASH_FAILED
    ∧ squash_lz4_decompress_buffer_gen LZ4_decompress_safe
        [2, 0, 0, 0, 0, 0, 0, 0, 7, 42] 2 = (SQUASH_OK, 2, [7, 42]) :=
  ⟨(decompress_status_contract LZ4_decompress_safe [2, 0, 0] 9).2.2.2.mpr (by decide),
   (decompress_status_contract LZ4_decompress_safe
      [2, 0, 0, 0, 0, 0, 0, 0, 7, 42] 2).2.2.1 [7, 42] (by decide)⟩

/-- C8: with the output capacity set to exactly the advertised bound, the
capacity-unchecked compress wrapper satisfies its debug assertion, writes at
most that many bytes, and reports a length within the bound, for every input
and option setting. -/
theorem unchecked_compress_within_bound (options : Option SquashLZ4Options)
    (B : List Nat) :
    squash_lz4_unchecked_assertion (squash_lz4_get_max_compressed_size B.length) B.length
    ∧ (squash_lz4_compress_buffer_unchecked options B
          (squash_lz4_get_max_compressed_size B.length)).2.2.length
        ≤ squash_lz4_get_max_compressed_size B.length
    ∧ (squash_lz4_compress_buffer_unchecked options B
          (squash_lz4_get_max_compressed_size B.length)).2.1
        ≤ squash_lz4_get_max_compressed_size B.length := by
  have hsel :
      squash_lz4_compress_buffer_unchecked options B
          (squash_lz4_get_max_compressed_size B.length)
        = mkCompressResult (LZ4_compress B) := by
    unfold squash_lz4_compress_buffer_unchecked squash_lz4_compress_buffer_unchecked_gen
      LZ4_compressHC
    exact congrArg mkCompressResult (ite_self _)
  have hlen : (LZ4_compress B).length ≤ squash_lz4_get_max_compressed_size B.length := by
    unfold LZ4_compress squash_lz4_get_max_compressed_size LZ4_COMPRESSBOUND
    by_cases hc : B.length ≤ LZ4_MAX_INPUT_SIZE
    · rw [if_pos hc, lz4BlockEncode_length]; omega
    · rw [if_neg hc]; simp
  rw [hsel]
  exact ⟨le_refl _, hlen, hlen⟩

/-- C2 as amended: on the case-insensitive key "level" the parse succeeds
exactly when `strtol` consumes the whole value and the parsed `long`,
converted to the 32-bit `int` type (wrapping modulo 2^32), is 1 or 9, in
which case `hc` becomes whether that converted value is 9; any other value
gives `SQUASH_BAD_VALUE`, and any other key `SQUASH_BAD_PARAM` with the
options returned unchanged. -/
theorem parse_option_level_contract (opts : SquashLZ4Options) (key value : List Char) :
    (strcaseEq key levelKey = true →
      (((squash_lz4_parse_option opts key value).1 = SQUASH_OK
          ↔ ((strtol0 value).2 = value.length
             ∧ (toInt32 (strtol0 value).1 = 1 ∨ toInt32 (strtol0 value).1 = 9)))
       ∧ ((squash_lz4_parse_option opts key value).1 = SQUASH_OK →
            (squash_lz4_parse_option opts key value).2.hc
              = (toInt32 (strtol0 value).1 == 9))
       ∧ ((squash_lz4_parse_option opts key value).1 ≠ SQUASH_OK →
            (squash_lz4_parse_option opts key value).1 = SQUASH_BAD_VALUE)))
    ∧ (strcaseEq key levelKey = false →
        squash_lz4_parse_option opts key value = (SQUASH_BAD_PARAM, opts)) := by
  unfold squash_lz4_parse_option
  by_cases hk : strcaseEq key levelKey = true
  · rw [if_pos hk]
    refine ⟨fun _ => ⟨?_, ?_, ?_⟩, fun hk2 => by rw [hk] at hk2; cases hk2⟩
    · by_cases hcond : (strtol0 value).2 = value.length
          ∧ (toInt32 (strtol0 value).1 = 1 ∨ toInt32 (strtol0 value).1 = 9)
      · rw [if_pos hcond]; simpa using hcond
      · rw [if_neg hcond]; simpa using hcond
    · by_cases hcond : (strtol0 value).2 = value.length
          ∧ (toInt32 (strtol0 value).1 = 1 ∨ toInt32 (strtol0 value).1 = 9)
      · rw [if_pos hcond]; intro; rfl
      · rw [if_neg hcond]; intro h; cases h
    · by_cases hcond : (strtol0 value).2 = value.length
          ∧ (toInt32 (strtol0 value).1 = 1 ∨ toInt32 (strtol0 value).1 = 9)
      · rw [if_pos hcond]; intro h; cases h rfl
      · rw [if_neg hcond]; intro; rfl
  · rw [if_neg hk]
    exact ⟨fun hk2 => absurd hk2 hk, fun _ => rfl⟩

/-- C2 witness: the hexadecimal spelling accepted by `strtol` base 0 drives
the contract at a concrete input. -/
theorem parse_option_level_contract_witness :
    strcaseEq levelKey levelKey = true
    ∧ (squash_lz4_parse_option ⟨false⟩ levelKey ['0', 'x', '9']).1 = SQUASH_OK :=
  ⟨by decide,
   (((parse_option_level_contract ⟨false⟩ levelKey ['0', 'x', '9']).1 (by decide)).1).mpr
     (by decide)⟩

/-- String spelling the decimal value 2^32 + 1, which `strtol` parses in
full to a `long` outside {1, 9} while the subsequent cast to `int` wraps it
to 1. -/
def bigLevelStr : List Char := ['4', '2', '9', '4', '9', '6', '7', '2', '9', '7']

/-- C2 counterexample: with key "level" and value "4294967297", integer
parsing consumes the whole string and yields 4294967297 — neither 1 nor 9 —
yet the code returns `SQUASH_OK` (and clears `hc`), because the `(int)` cast
of the `long` result wraps to 1; so success is not equivalent to the parsed
value being exactly 1 or 9. -/
theorem parse_option_level_counterexample :
    ¬(((squash_lz4_parse_option ⟨true⟩ levelKey bigLevelStr).1 = SQUASH_OK)
        ↔ ((strtol0 bigLevelStr).2 = bigLevelStr.length
           ∧ ((strtol0 bigLevelStr).1 = 1 ∨ (strtol0 bigLevelStr).1 = 9)))
    ∧ squash_lz4_parse_option ⟨true⟩ levelKey bigLevelStr = (SQUASH_OK, ⟨false⟩)
    ∧ (strtol0 bigLevelStr).1 = 4294967297
    ∧ (strtol0 bigLevelStr).2 = bigLevelStr.length := by
  decide

/-- C7: registration succeeds exactly on the case-sensitive name "lz4",
installing all six function pointers; any other name yields
`SQUASH_UNABLE_TO_LOAD` with the table untouched. -/
theorem plugin_init_codec_contract (name : String) (funcs : SquashCodecFuncs) :
    (name = "lz4" →
      squash_plugin_init_codec name funcs
        = (SQUASH_OK,
           { funcs with
             create_options := some squash_lz4_create_options,
             parse_option := some squash_lz4_parse_option,
             get_max_compressed_size := some squash_lz4_get_max_compressed_size,
             decompress_buffer := some squash_lz4_decompress_buffer,
             compress_buffer := some squash_lz4_compress_buffer,
             compress_buffer_unchecked := some squash_lz4_compress_buffer_unchecked }))
    ∧ (name ≠ "lz4" →
        squash_plugin_init_codec name funcs = (SQUASH_UNABLE_TO_LOAD, funcs)) := by
  constructor
  · intro h; simp [squash_plugin_init_codec, h]
  · intro h; simp [squash_plugin_init_codec, h]

/-- C7 witness: the exact name loads, a case variant does not. -/
theorem plugin_init_codec_contract_witness :
    (squash_plugin_init_codec "lz4" emptyCodecFuncs).1 = SQUASH_OK
    ∧ (squash_plugin_init_codec "LZ4" emptyCodecFuncs).1 = SQUASH_UNABLE_TO_LOAD :=
  ⟨congrArg Prod.fst ((plugin_init_codec_contract "lz4" emptyCodecFuncs).1 rfl),
   congrArg Prod.fst ((plugin_init_codec_contract "LZ4" emptyCodecFuncs).2 (by decide))⟩

/-- C9: when `malloc` succeeds, `squash_lz4_options_new` returns a fresh
options value with `hc = false`, regardless of the allocation's
uninitialised contents; but when `malloc` reports exhaustion the unchecked
NULL flows into `squash_lz4_options_init`, whose assertion fires — no
allocation failure is reported to the host. -/
theorem options_new_null_unchecked :
    (∀ junk : SquashLZ4Options, squash_lz4_options_new (some junk) = Except.ok ⟨false⟩)
    ∧ squash_lz4_options_new none
        = Except.error SquashAssertViolation.nullOptions :=
  ⟨fun _ => rfl, rfl⟩

/-- C10: whenever `squash_lz4_parse_option` returns a failure status the
options value is returned unchanged; only a successful parse mutates it. -/
theorem parse_option_no_mutation_on_failure (opts : SquashLZ4Options)
    (key value : List Char)
    (h : (squash_lz4_parse_option opts key value).1 ≠ SQUASH_OK) :
    (squash_lz4_parse_option opts key value).2 = opts := by
  unfold squash_lz4_parse_option at h ⊢
  by_cases hk : strcaseEq key levelKey = true
  · rw [if_pos hk] at h ⊢
    by_cases hcond : (strtol0 value).2 = value.length
        ∧ (toInt32 (strtol0 value).1 = 1 ∨ toInt32 (strtol0 value).1 = 9)
    · rw [if_pos hcond] at h; cases h rfl
    · rw [if_neg hcond]
  · rw [if_neg hk]

/-- C10 witness: a bad-parameter call and a bad-value call both leave the
flag as it was. -/
theorem parse_option_no_mutation_on_failure_witness :
    (squash_lz4_parse_option ⟨true⟩ ['x'] ['9']).1 ≠ SQUASH_OK
    ∧ (squash_lz4_parse_option ⟨true⟩ ['x'] ['9']).2 = ⟨true⟩
    ∧ (squash_lz4_parse_option ⟨true⟩ levelKey ['5']).2 = ⟨true⟩ :=
  ⟨by decide, parse_option_no_mutation_on_failure ⟨true⟩ ['x'] ['9'] (by decide),
   parse_option_no_mutation_on_failure ⟨true⟩ levelKey ['5'] (by decide)⟩




